import Mathlib

/-!
A shallow embedding of the `pytorch_retinanet` glue code
(`model.py` and `pytorch_retinanet/config.py`) together with proofs of the
behavioural properties of the `RetinaNetModel` Lightning module and the
`LogCallback` callback.

Python values are modelled as follows: attributes that may not yet exist on
the module are `Option`-valued; Python exceptions are an explicit `PyErr`
value returned next to the (possibly partially mutated) state; dictionaries
whose values we track are association lists; tensors holding scalar losses
are rationals.  External library entry points (`get_coco`, `get_pascal`,
`CocoEvaluator`, ...) are modelled from the spec as constructors recording
their arguments, since their code is not part of this repository.
-/

/-- Python exceptions relevant to this code: the single explicit
`raise ValueError` in `prepare_data`, plus the implicit errors Python itself
raises on bad list indexing, missing attributes and missing dict keys. -/
inductive PyErr where
  | valueError (msg : String)
  | indexError
  | attributeError (attr : String)
  | keyError (key : String)
deriving DecidableEq, Repr

/-- One primitive transform.  `toTensor` and `randomHorizontalFlip` are the
two COCO transforms used in `prepare_data`; `loaded` is an object
instantiated by `load_obj(class_name)(**params)`. -/
inductive Tfm where
  | toTensor
  | randomHorizontalFlip (prob : ℚ)
  | loaded (class_name : String) (params : List (String × ℚ))
deriving DecidableEq, Repr

/-- A composed pipeline (`Compose`, `compose_transforms`) is modelled by the
list of transforms it applies in order. -/
abbrev TfmPipeline := List Tfm

/-- Modelled from the spec: `compose_transforms` from `utils.pascal` wraps a
list of transforms into one pipeline (called with no argument it composes the
default, empty, extra list). -/
def compose_transforms (ts : TfmPipeline := []) : TfmPipeline :=
  ts

/-- A value stored in the module's dataset slots: either the Python literal
`False`, or a dataset object built by one of the two loaders. -/
inductive DSVal where
  | pyFalse
  | cocoDS (root : String) (image_set : String) (transforms : TfmPipeline)
  | pascalDS (path0 : String) (path1 : String) (split : String) (transforms : TfmPipeline)
deriving DecidableEq, Repr

/-- Python truthiness of a dataset slot: the literal `False` is falsy, a
constructed dataset object is truthy. -/
def DSVal.truthy : DSVal → Bool
  | .pyFalse => false
  | _ => true

/-- Modelled from the spec: the COCO loader `get_coco(root, image_set,
transforms)` returns a dataset object recording its arguments. -/
def get_coco (root : String) (image_set : String) (transforms : TfmPipeline) : DSVal :=
  DSVal.cocoDS root image_set transforms

/-- Modelled from the spec: the Pascal loader
`get_pascal(p0, p1, split, transforms)` returns a dataset object recording
its arguments. -/
def get_pascal (p0 p1 : String) (split : String) (transforms : TfmPipeline) : DSVal :=
  DSVal.pascalDS p0 p1 split transforms

/-- `hparams.dataset`: the dataset section of the configuration. -/
structure DatasetConfig where
  kind : String
  root_dir : String
  trn_paths : List String
  valid_paths : List String
  test_paths : List String
deriving DecidableEq, Repr

/-- `hparams.optimizer.params`: the fields the code reads by name. -/
structure OptParams where
  lr : ℚ
  weight_decay : ℚ
deriving DecidableEq, Repr

/-- `hparams.optimizer`. -/
structure OptimizerConfig where
  class_name : String
  params : OptParams
deriving DecidableEq, Repr

/-- `hparams.scheduler`. -/
structure SchedulerConfig where
  class_name : String
  params : List (String × ℚ)
  interval : String
  frequency : ℕ
deriving DecidableEq, Repr

/-- `hparams.dataloader`. -/
structure DataloaderConfig where
  train_bs : ℕ
  valid_bs : ℕ
  test_bs : ℕ
  args : List (String × ℚ)
deriving DecidableEq, Repr

/-- One entry of `hparams.pascal_transforms`: a dict with a `class_name` and
a `params` mapping, consumed by `load_obj(i["class_name"])(**i["params"])`. -/
structure TfmSpec where
  class_name : String
  params : List (String × ℚ)
deriving DecidableEq, Repr

/-- The full configuration object handed to `RetinaNetModel.__init__`. -/
structure HParams where
  model : List (String × ℚ)
  dataset : DatasetConfig
  optimizer : OptimizerConfig
  scheduler : SchedulerConfig
  dataloader : DataloaderConfig
  pascal_transforms : List TfmSpec
deriving DecidableEq, Repr

/-- The optimizer object built by `load_obj(class_name)(params, **p)`. -/
inductive Optimizer where
  | loaded (class_name : String) (params : OptParams)
deriving DecidableEq, Repr

/-- The scheduler object built by `load_obj(class_name)(optimizer, **p)`. -/
inductive Scheduler where
  | loaded (class_name : String) (opt : Optimizer) (params : List (String × ℚ))
deriving DecidableEq, Repr

/-- The scheduler dict `{"scheduler": ..., "interval": ..., "frequency": ...}`
that `configure_optimizers` finally stores in `self.scheduler`. -/
structure SchedulerDict where
  scheduler : Scheduler
  interval : String
  frequency : ℕ
deriving DecidableEq, Repr

abbrev Image := ℕ

/-- A target dictionary (`boxes`, `labels`, `area`, `image_id`, ... keyed by
name); values are modelled as rationals. -/
abbrev Target := List (String × ℚ)

/-- The loss mapping returned by the wrapped model in training mode. -/
abbrev LossDict := List (String × ℚ)

/-- One batch as produced by `collate_fn`: `(images, targets, ids)`. -/
structure Batch where
  images : List Image
  targets : List Target
  ids : List ℕ
deriving DecidableEq, Repr

/-- `{k: v for k, v in t.items()}`: a fresh dict with the same items. -/
def dictItems (t : Target) : Target :=
  t.map (fun kv => (kv.1, kv.2))

/-- The update fed to the evaluator on one test step: image id (the value of
the `image_id` entry) paired with that image's (opaque) prediction. -/
abbrev Res := List (ℚ × ℕ)

/-- The COCO ground-truth API object built from a dataset. -/
inductive CocoApi where
  | fromDataset (ds : DSVal)
deriving DecidableEq, Repr

/-- Modelled from the spec: `get_coco_api_from_dataset` converts a dataset's
annotations into the external evaluator's expected index format. -/
def get_coco_api_from_dataset (ds : DSVal) : CocoApi :=
  CocoApi.fromDataset ds

/-- One per-IoU-type `COCOeval` object; after `summarize` its `stats` array
holds the summary metrics. -/
structure CocoEvalObj where
  stats : List ℚ
deriving DecidableEq, Repr

/-- Modelled from the spec: the external `CocoEvaluator`.  It accumulates
per-image results via `update`, is finalized once by `accumulate` followed by
`summarize`, and exposes a `coco_eval` dict from IoU type to a `COCOeval`
whose `stats` array `summarize` fills in. -/
structure CocoEvaluator where
  api : CocoApi
  iou_types : List String
  updates : List Res
  accumulated : Bool
  summarized : Bool
  coco_eval : List (String × CocoEvalObj)
deriving DecidableEq, Repr

/-- `CocoEvaluator(coco, iou_types)`: a fresh evaluator with no results and
empty stats. -/
def CocoEvaluator.new (api : CocoApi) (iou_types : List String) : CocoEvaluator where
  api := api
  iou_types := iou_types
  updates := []
  accumulated := false
  summarized := false
  coco_eval := iou_types.map (fun t => (t, { stats := [] }))

/-- `evaluator.update(res)`. -/
def CocoEvaluator.update (ev : CocoEvaluator) (res : Res) : CocoEvaluator :=
  { ev with updates := ev.updates ++ [res] }

/-- `evaluator.accumulate()`. -/
def CocoEvaluator.accumulate (ev : CocoEvaluator) : CocoEvaluator :=
  { ev with accumulated := true }

/-- The external toolkit's statistics computation: from the ground-truth api,
the IoU type and the accumulated results it produces the `stats` array.  Its
algorithm lives outside this repository, so theorems quantify over it. -/
abbrev StatsFn := CocoApi → String → List Res → List ℚ

/-- `evaluator.summarize()`: marks the evaluator summarized and fills each
`COCOeval`'s `stats` with the toolkit's computed summary. -/
def CocoEvaluator.summarize (ev : CocoEvaluator) (f : StatsFn) : CocoEvaluator :=
  { ev with
    summarized := true
    coco_eval := ev.coco_eval.map (fun p => (p.1, { stats := f ev.api p.1 ev.updates })) }

/-- `torch.as_tensor` on a scalar: value-preserving. -/
def torch_as_tensor (x : ℚ) : ℚ := x

/-- The log lines emitted through `fancy_logger.info`, recorded with the data
each f-string formats. -/
inductive LogLine where
  | datasetKind (kind : String)
  | optimizerName (name : String)
  | learningRate (lr : ℚ)
  | weightDecay (wd : ℚ)
  | schedulerName (name : String)
  | convertingPrompt
  | conversionFinished (ds : DSVal)
  | preparingResults
  | evaluatingPredictions
  | maxEpochs (n : ℕ)
  | trainingOnImages (ds : DSVal)
  | trainingFromIteration (step : ℕ)
  | totalComputeTime (start finish : ℕ)
  | startInference (ds : DSVal)
  | totalInferenceTime (start finish : ℕ)
deriving DecidableEq, Repr

/-- `some_path.to.Cls` has `__name__` equal to its last dotted component. -/
def clsName (path : String) : String :=
  (path.splitOn ".").getLastD path

/-- The mutable state of a `RetinaNetModel` instance.  `model` and `predict`
stand for the wrapped Retinanet's training forward pass and inference path;
the dataset slots, optimizer, scheduler and evaluator are attributes the
lifecycle methods create (`none` = attribute not set yet); `logs` collects
the `fancy_logger.info` output. -/
structure ModuleState where
  hparams : HParams
  model : List Image → List Target → LossDict
  predict : List Image → List ℕ
  trn_ds : Option DSVal := none
  val_ds : Option DSVal := none
  test_ds : Option DSVal := none
  optimizer : Option Optimizer := none
  scheduler : Option SchedulerDict := none
  test_evaluator : Option CocoEvaluator := none
  logs : List LogLine := []

/-- Append one `fancy_logger.info` line. -/
def ModuleState.logInfo (s : ModuleState) (l : LogLine) : ModuleState :=
  { s with logs := s.logs ++ [l] }

/-- A `torch.utils.data.DataLoader` as constructed here: the dataset, the
positional batch size, the `shuffle` flag and the extra keyword args
(`collate_fn` is always the repository's `collate_fn` and is omitted). -/
structure DataLoader where
  dataset : DSVal
  batch_size : ℕ
  shuffle : Bool
  args : List (String × ℚ)
deriving DecidableEq, Repr

/-- `RetinaNetModel.prepare_data`.  Returns the state as of the point where
the method returned or raised, together with the raised error if any:
`ValueError` for an unsupported kind, `IndexError` when a configured path
list is too short for the `[0]`/`[1]` indexing the Pascal branch performs. -/
def prepare_data (s : ModuleState) : ModuleState × Option PyErr :=
  let dp := s.hparams.dataset
  let s := s.logInfo (.datasetKind dp.kind)
  if dp.kind = "coco" then
    let trn_tfms : TfmPipeline := [.toTensor, .randomHorizontalFlip (1/2)]
    let val_tfms : TfmPipeline := [.toTensor]
    ({ s with
        trn_ds := some (get_coco dp.root_dir "train" trn_tfms)
        val_ds := some (get_coco dp.root_dir "val" val_tfms)
        test_ds := some .pyFalse }, none)
  else if dp.kind = "pascal" then
    let trn_tfms := compose_transforms
      (s.hparams.pascal_transforms.map (fun i => Tfm.loaded i.class_name i.params))
    let val_tfms := compose_transforms
    match dp.trn_paths.get? 0, dp.trn_paths.get? 1 with
    | some t0, some t1 =>
      let s := { s with trn_ds := some (get_pascal t0 t1 "train" trn_tfms) }
      match dp.valid_paths.get? 0, dp.valid_paths.get? 1 with
      | some v0, some v1 =>
        let s := { s with val_ds := some (get_pascal v0 v1 "test" val_tfms) }
        if dp.test_paths.isEmpty then
          ({ s with test_ds := some .pyFalse }, none)
        else
          match dp.test_paths.get? 0, dp.test_paths.get? 1 with
          | some p0, some p1 =>
            ({ s with test_ds := some (get_pascal p0 p1 "test" val_tfms) }, none)
          | _, _ => (s, some .indexError)
      | _, _ => (s, some .indexError)
    | _, _ => (s, some .indexError)
  else
    (s, some (.valueError "DATASET_KIND not supported"))

/-- `RetinaNetModel.configure_optimizers`: builds the optimizer and scheduler
from the configuration, stores them on the module (the transient first
assignment of the bare scheduler object is immediately overwritten by the
scheduler dict, so only the dict is recorded), logs their names and the
learning-rate/weight-decay hyperparameters, and returns them. -/
def configure_optimizers (s : ModuleState) :
    ModuleState × (List Optimizer × List SchedulerDict) :=
  let opt := Optimizer.loaded s.hparams.optimizer.class_name s.hparams.optimizer.params
  let s := { s with optimizer := some opt }
  let sch := Scheduler.loaded s.hparams.scheduler.class_name opt s.hparams.scheduler.params
  let schd : SchedulerDict :=
    { scheduler := sch
      interval := s.hparams.scheduler.interval
      frequency := s.hparams.scheduler.frequency }
  let s := { s with scheduler := some schd }
  let s := s.logInfo (.optimizerName (clsName s.hparams.optimizer.class_name))
  let s := s.logInfo (.learningRate s.hparams.optimizer.params.lr)
  let s := s.logInfo (.weightDecay s.hparams.optimizer.params.weight_decay)
  let s := s.logInfo (.schedulerName (clsName s.hparams.scheduler.class_name))
  (s, ([opt], [schd]))

/-- `RetinaNetModel.train_dataloader`: a loader over `trn_ds` with the train
batch size, shuffled.  Raises `AttributeError` if `prepare_data` has not set
`trn_ds`.  Writes no attribute, so the state comes back unchanged. -/
def train_dataloader (s : ModuleState) : ModuleState × Except PyErr DataLoader :=
  match s.trn_ds with
  | none => (s, .error (.attributeError "trn_ds"))
  | some ds =>
    (s, .ok { dataset := ds
              batch_size := s.hparams.dataloader.train_bs
              shuffle := true
              args := s.hparams.dataloader.args })

/-- `RetinaNetModel.val_dataloader`: a loader over `val_ds` with the valid
batch size.  Writes no attribute, so the state comes back unchanged. -/
def val_dataloader (s : ModuleState) : ModuleState × Except PyErr DataLoader :=
  match s.val_ds with
  | none => (s, .error (.attributeError "val_ds"))
  | some ds =>
    (s, .ok { dataset := ds
              batch_size := s.hparams.dataloader.valid_bs
              shuffle := false
              args := s.hparams.dataloader.args })

/-- `RetinaNetModel.test_dataloader`: when `test_ds` is falsy, falls back to
a loader over `val_ds` with the valid batch size, otherwise uses `test_ds`
with the test batch size; then converts the chosen loader's dataset to the
COCO api format and stores a fresh `CocoEvaluator` over it in
`self.test_evaluator`, logging around the conversion. -/
def test_dataloader (s : ModuleState) : ModuleState × Except PyErr DataLoader :=
  match s.test_ds with
  | none => (s, .error (.attributeError "test_ds"))
  | some tds =>
    let build : ModuleState → DataLoader → ModuleState × Except PyErr DataLoader :=
      fun s loader =>
        let s := s.logInfo .convertingPrompt
        let coco := get_coco_api_from_dataset loader.dataset
        let s := { s with test_evaluator := some (CocoEvaluator.new coco ["bbox"]) }
        let s := s.logInfo (.conversionFinished loader.dataset)
        (s, .ok loader)
    if tds.truthy = false then
      match s.val_ds with
      | none => (s, .error (.attributeError "val_ds"))
      | some vds =>
        build s { dataset := vds
                  batch_size := s.hparams.dataloader.valid_bs
                  shuffle := false
                  args := s.hparams.dataloader.args }
    else
      build s { dataset := tds
                batch_size := s.hparams.dataloader.test_bs
                shuffle := false
                args := s.hparams.dataloader.args }

/-- The dict returned by `training_step`. -/
structure TrainStepOut where
  loss : ℚ
  log : LossDict
  progress_bar : LossDict
deriving DecidableEq, Repr

/-- The dict returned by `validation_step`. -/
structure ValStepOut where
  val_loss : ℚ
  log : List (String × ℚ)
  progress_bar : List (String × ℚ)
deriving DecidableEq, Repr

/-- `RetinaNetModel.training_step`: unpacks the batch, copies each target
dict, runs the model and sums the per-term losses.  Writes no attribute. -/
def training_step (s : ModuleState) (batch : Batch) : ModuleState × TrainStepOut :=
  let images := batch.images
  let targets := batch.targets.map dictItems
  let loss_dict := s.model images targets
  let losses := (loss_dict.map Prod.snd).sum
  (s, { loss := losses, log := loss_dict, progress_bar := loss_dict })

/-- `RetinaNetModel.validation_step`: same computation as `training_step`,
with the total passed through `torch.as_tensor` and reported as `val_loss`. -/
def validation_step (s : ModuleState) (batch : Batch) : ModuleState × ValStepOut :=
  let images := batch.images
  let targets := batch.targets.map dictItems
  let loss_dict := s.model images targets
  let loss := torch_as_tensor ((loss_dict.map Prod.snd).sum)
  (s, { val_loss := loss, log := [("val_loss", loss)], progress_bar := [("val_loss", loss)] })

/-- `RetinaNetModel.test_step`: runs inference, keys each prediction by its
target's `image_id` entry and feeds the result dict to the evaluator.
Raises `KeyError` if a zipped target lacks `image_id`, `AttributeError` if
no evaluator has been installed. -/
def test_step (s : ModuleState) (batch : Batch) : ModuleState × Option PyErr :=
  let targets := batch.targets.map dictItems
  let outputs := s.predict batch.images
  let pairs := targets.zip outputs
  if pairs.all (fun p => (p.1.lookup "image_id").isSome) then
    match s.test_evaluator with
    | none => (s, some (.attributeError "test_evaluator"))
    | some ev =>
      let res : Res := pairs.filterMap (fun p => (p.1.lookup "image_id").map (fun i => (i, p.2)))
      ({ s with test_evaluator := some (ev.update res) }, none)
  else
    (s, some (.keyError "image_id"))

/-- The dict returned by `test_epoch_end`. -/
structure TestEpochOut where
  AP : ℚ
  log : List (String × ℚ)
  progress_bar : List (String × ℚ)
deriving DecidableEq, Repr

/-- `RetinaNetModel.test_epoch_end`: logs, finalizes the evaluator with
`accumulate` then `summarize` (the toolkit's statistics computation `f` is a
parameter, see `StatsFn`), and extracts `coco_eval["bbox"].stats[0]` as the
`AP` metric. -/
def test_epoch_end (f : StatsFn) (s : ModuleState) :
    ModuleState × Except PyErr TestEpochOut :=
  match s.test_evaluator with
  | none => (s, .error (.attributeError "test_evaluator"))
  | some ev =>
    let s := s.logInfo .preparingResults
    let s := s.logInfo .evaluatingPredictions
    let ev := ev.accumulate
    let ev := ev.summarize f
    let s := { s with test_evaluator := some ev }
    match ev.coco_eval.lookup "bbox" with
    | none => (s, .error (.keyError "bbox"))
    | some e =>
      match e.stats.get? 0 with
      | none => (s, .error .indexError)
      | some m =>
        let metric := torch_as_tensor m
        (s, .ok { AP := metric
                  log := [("AP", metric)]
                  progress_bar := [("AP", metric)] })

/-- The trainer attributes `LogCallback` reads. -/
structure Trainer where
  max_epochs : ℕ
  global_step : ℕ
deriving DecidableEq, Repr

/-- The state `LogCallback` keeps on itself: its four timestamp attributes
(`none` = not set yet); timestamps are abstract instants. -/
structure CallbackState where
  train_start : Option ℕ := none
  train_end : Option ℕ := none
  test_start : Option ℕ := none
  test_end : Option ℕ := none
deriving DecidableEq, Repr

/-- `LogCallback.on_fit_start`: logs the trainer's max epoch count. -/
def on_fit_start (cb : CallbackState) (tr : Trainer) (m : ModuleState) :
    CallbackState × ModuleState :=
  (cb, m.logInfo (.maxEpochs tr.max_epochs))

/-- `LogCallback.on_train_start`: records the start timestamp, then logs the
training dataset size (via `pl_module.train_dataloader()`) and the starting
iteration. -/
def on_train_start (cb : CallbackState) (now : ℕ) (tr : Trainer) (m : ModuleState) :
    (CallbackState × ModuleState) × Option PyErr :=
  let cb := { cb with train_start := some now }
  match train_dataloader m with
  | (m', .ok loader) =>
    let m' := m'.logInfo (.trainingOnImages loader.dataset)
    let m' := m'.logInfo (.trainingFromIteration tr.global_step)
    ((cb, m'), none)
  | (m', .error e) => ((cb, m'), some e)

/-- `LogCallback.on_train_end`: records the end timestamp and logs the
elapsed time (reading `self.train_start`, which raises `AttributeError` when
`on_train_start` never ran). -/
def on_train_end (cb : CallbackState) (now : ℕ) (m : ModuleState) :
    (CallbackState × ModuleState) × Option PyErr :=
  let cb := { cb with train_end := some now }
  match cb.train_start with
  | none => ((cb, m), some (.attributeError "train_start"))
  | some st => ((cb, m.logInfo (.totalComputeTime st now)), none)

/-- `LogCallback.on_test_start`: records the start timestamp, then calls
`pl_module.test_dataloader()` — which installs a fresh evaluator on the
module — and logs the chosen dataset's size. -/
def on_test_start (cb : CallbackState) (now : ℕ) (m : ModuleState) :
    (CallbackState × ModuleState) × Option PyErr :=
  let cb := { cb with test_start := some now }
  match test_dataloader m with
  | (m', .ok loader) => ((cb, m'.logInfo (.startInference loader.dataset)), none)
  | (m', .error e) => ((cb, m'), some e)

/-- `LogCallback.on_test_end`: records the end timestamp and logs the
elapsed inference time. -/
def on_test_end (cb : CallbackState) (now : ℕ) (m : ModuleState) :
    (CallbackState × ModuleState) × Option PyErr :=
  let cb := { cb with test_end := some now }
  match cb.test_start with
  | none => ((cb, m), some (.attributeError "test_start"))
  | some st => ((cb, m.logInfo (.totalInferenceTime st now)), none)

/-!  `pytorch_retinanet/config.py` constants. -/

def MEAN : List ℚ := [0.485, 0.456, 0.406]

def STD : List ℚ := [0.229, 0.224, 0.225]

def MIN_IMAGE_SIZE : ℕ := 600

def MAX_IMAGE_SIZE : ℕ := 1333

/-- One anchor size, denoting the real number `coeff * 2 ^ (octave / 3)`:
the source computes `x * 2 ** (k / 3)` for `k = 0, 1, 2`, which is exactly
representable this way (the value itself is irrational for `k = 1, 2`). -/
structure AnchorSize where
  coeff : ℚ
  octave : ℕ
deriving DecidableEq, Repr, Inhabited

/-- The cube of the denoted value: `(coeff * 2 ^ (octave / 3)) ^ 3`, a
rational.  Two positive anchor sizes denote the same real iff their cubed
values agree. -/
def AnchorSize.cubedVal (a : AnchorSize) : ℚ :=
  a.coeff ^ 3 * 2 ^ a.octave

/-- `ANCHOR_SIZES = [[x, x * 2 ** (1/3), x * 2 ** (2/3)] for x in
[32, 64, 128, 256, 512]]`. -/
def ANCHOR_SIZES : List (List AnchorSize) :=
  ([32, 64, 128, 256, 512] : List ℚ).map (fun x => [⟨x, 0⟩, ⟨x, 1⟩, ⟨x, 2⟩])

def ANCHOR_STRIDES : List ℕ := [8, 16, 32, 64, 128]

def ANCHOR_OFFSET : ℚ := 0

def ANCHOR_ASPECT_RATIOS : List ℚ := [0.5, 1.0, 2.0]

def NUM_CLASSES : ℕ := 80

/-!  Concrete fixtures used by witness and counterexample theorems. -/

/-- A sample configuration with the given dataset kind. -/
def sampleHParams (kind : String) : HParams where
  model := [("num_classes", 3)]
  dataset :=
    { kind := kind
      root_dir := "data/coco"
      trn_paths := ["trn.csv", "trn_images"]
      valid_paths := ["val.csv", "val_images"]
      test_paths := ["tst.csv", "tst_images"] }
  optimizer := { class_name := "torch.optim.SGD", params := { lr := 1/100, weight_decay := 1/1000 } }
  scheduler :=
    { class_name := "torch.optim.lr_scheduler.StepLR"
      params := [("step_size", 8)]
      interval := "epoch"
      frequency := 1 }
  dataloader := { train_bs := 2, valid_bs := 4, test_bs := 4, args := [("num_workers", 2)] }
  pascal_transforms := []

/-- A freshly constructed module over the given configuration, with a fixed
two-term loss model and an identity-ish inference path. -/
def mkModule (hp : HParams) : ModuleState where
  hparams := hp
  model := fun _ _ => [("classification_loss", 2), ("regression_loss", 3)]
  predict := fun imgs => imgs

/-!  Theorems. -/

/-- Copying a target dict entry by entry (`{k: v for k, v in t.items()}`)
preserves it. -/
theorem dictItems_id (t : Target) : dictItems t = t := by
  simp [dictItems]

/-- Copying every target of a batch preserves the list of targets. -/
theorem map_dictItems_id (l : List Target) : l.map dictItems = l := by
  induction l with
  | nil => rfl
  | cons a l ih => simp [dictItems_id, ih]

/-- C10: the anchor configuration constants are mutually consistent:
`ANCHOR_SIZES` has exactly five groups, one per entry of `ANCHOR_STRIDES`;
each group has exactly three sizes, one per entry of
`ANCHOR_ASPECT_RATIOS`; and the first (base) size of the `i`-th group equals
four times the `i`-th stride (compared via cubed values, which determine the
positive size `x * 2 ^ (octave / 3)` uniquely). -/
theorem anchor_config_consistent :
    ANCHOR_SIZES.length = ANCHOR_STRIDES.length ∧
    ANCHOR_STRIDES.length = 5 ∧
    ANCHOR_SIZES.map List.length = List.replicate 5 ANCHOR_ASPECT_RATIOS.length ∧
    ANCHOR_ASPECT_RATIOS.length = 3 ∧
    ANCHOR_SIZES.map (fun g => g.headI.cubedVal) =
      ANCHOR_STRIDES.map (fun st => (((4 * st : ℕ) : ℚ)) ^ 3) := by
  refine ⟨rfl, rfl, rfl, rfl, ?_⟩
  simp only [ANCHOR_SIZES, ANCHOR_STRIDES, AnchorSize.cubedVal, List.map_cons, List.map_nil,
    List.headI]
  norm_num

/-- C4: `training_step` returns a result whose `loss` entry equals the sum
of all per-term loss values in the mapping the model returns for the batch's
images and targets (the target dicts are copied entrywise before the model
call, which preserves them). -/
theorem training_step_loss_sum (s : ModuleState) (b : Batch) :
    (training_step s b).2.loss = ((s.model b.images b.targets).map Prod.snd).sum := by
  simp [training_step, map_dictItems_id]

/-- C7: on the same batch with the same model output, `training_step`'s
`loss` and `validation_step`'s `val_loss` are the same scalar: the sum of
the loss mapping's values. -/
theorem train_val_total_loss_agree (s : ModuleState) (b : Batch) :
    (training_step s b).2.loss = (validation_step s b).2.val_loss := by
  simp [training_step, validation_step, torch_as_tensor]

/-- C8: no operation of the module mutates the configuration: the module
state coming out of `prepare_data`, `configure_optimizers`, each dataloader
constructor and each step carries exactly the `hparams` it went in with. -/
theorem hparams_immutable (s : ModuleState) (b : Batch) (f : StatsFn) :
    (prepare_data s).1.hparams = s.hparams ∧
    (configure_optimizers s).1.hparams = s.hparams ∧
    (train_dataloader s).1.hparams = s.hparams ∧
    (val_dataloader s).1.hparams = s.hparams ∧
    (test_dataloader s).1.hparams = s.hparams ∧
    (training_step s b).1.hparams = s.hparams ∧
    (validation_step s b).1.hparams = s.hparams ∧
    (test_step s b).1.hparams = s.hparams ∧
    (test_epoch_end f s).1.hparams = s.hparams := by
  refine ⟨?_, rfl, ?_, ?_, ?_, rfl, rfl, ?_, ?_⟩
  · simp only [prepare_data]
    repeat' split
    all_goals rfl
  · unfold train_dataloader
    split <;> rfl
  · unfold val_dataloader
    split <;> rfl
  · simp only [test_dataloader]
    repeat' split
    all_goals rfl
  · simp only [test_step]
    repeat' split
    all_goals rfl
  · simp only [test_epoch_end]
    repeat' split
    all_goals rfl

/-- C1: `prepare_data` raises the configuration error (the explicit
`ValueError "DATASET_KIND not supported"`, the only error this repository's
own code raises) exactly when the configured kind is neither `"coco"` nor
`"pascal"`, and in that case none of the dataset attributes `trn_ds`,
`val_ds`, `test_ds` has been touched. -/
theorem prepare_data_config_error_iff (s : ModuleState) :
    ((prepare_data s).2 = some (PyErr.valueError "DATASET_KIND not supported") ↔
      (s.hparams.dataset.kind ≠ "coco" ∧ s.hparams.dataset.kind ≠ "pascal")) ∧
    ((prepare_data s).2 = some (PyErr.valueError "DATASET_KIND not supported") →
      (prepare_data s).1.trn_ds = s.trn_ds ∧ (prepare_data s).1.val_ds = s.val_ds ∧
        (prepare_data s).1.test_ds = s.test_ds) := by
  by_cases h1 : s.hparams.dataset.kind = "coco"
  · simp [prepare_data, h1]
  · by_cases h2 : s.hparams.dataset.kind = "pascal"
    · have hne : (prepare_data s).2 ≠ some (PyErr.valueError "DATASET_KIND not supported") := by
        simp only [prepare_data, h1, h2]
        repeat' split
        all_goals simp_all
      exact ⟨⟨fun he => absurd he hne, fun hk => absurd h2 hk.2⟩, fun he => absurd he hne⟩
    · refine ⟨⟨fun _ => ⟨h1, h2⟩, fun _ => ?_⟩, fun _ => ?_⟩
      · simp [prepare_data, h1, h2]
      · refine ⟨?_, ?_, ?_⟩ <;> simp [prepare_data, h1, h2, ModuleState.logInfo]

/-- Witness for C1 at a concrete unsupported kind: the configuration error
is raised and the dataset attributes stay unset. -/
theorem prepare_data_config_error_iff_w :
    (prepare_data (mkModule (sampleHParams "voc"))).2 =
      some (PyErr.valueError "DATASET_KIND not supported") ∧
    (prepare_data (mkModule (sampleHParams "voc"))).1.trn_ds = none ∧
    (prepare_data (mkModule (sampleHParams "voc"))).1.val_ds = none ∧
    (prepare_data (mkModule (sampleHParams "voc"))).1.test_ds = none := by
  have h := prepare_data_config_error_iff (mkModule (sampleHParams "voc"))
  have he : (prepare_data (mkModule (sampleHParams "voc"))).2 =
      some (PyErr.valueError "DATASET_KIND not supported") :=
    h.1.mpr ⟨by decide, by decide⟩
  have hs := h.2 he
  exact ⟨he, hs.1, hs.2.1, hs.2.2⟩

/-- C2: with kind `"coco"`, `prepare_data` succeeds, builds the train and
validation datasets through the COCO loader at the configured root (with the
train/val transform pipelines) and leaves a falsy test dataset. -/
theorem prepare_data_coco_branch (s : ModuleState)
    (h : s.hparams.dataset.kind = "coco") :
    (prepare_data s).2 = none ∧
    (prepare_data s).1.trn_ds =
      some (get_coco s.hparams.dataset.root_dir "train"
        [Tfm.toTensor, Tfm.randomHorizontalFlip (1/2)]) ∧
    (prepare_data s).1.val_ds =
      some (get_coco s.hparams.dataset.root_dir "val" [Tfm.toTensor]) ∧
    ∃ t, (prepare_data s).1.test_ds = some t ∧ t.truthy = false := by
  refine ⟨?_, ?_, ?_, DSVal.pyFalse, ?_, rfl⟩ <;> simp [prepare_data, h]

/-- Witness for C2 at the sample COCO configuration. -/
theorem prepare_data_coco_branch_w :
    (prepare_data (mkModule (sampleHParams "coco"))).2 = none ∧
    (prepare_data (mkModule (sampleHParams "coco"))).1.trn_ds =
      some (get_coco "data/coco" "train" [Tfm.toTensor, Tfm.randomHorizontalFlip (1/2)]) ∧
    (prepare_data (mkModule (sampleHParams "coco"))).1.val_ds =
      some (get_coco "data/coco" "val" [Tfm.toTensor]) ∧
    ∃ t, (prepare_data (mkModule (sampleHParams "coco"))).1.test_ds = some t ∧
      t.truthy = false :=
  prepare_data_coco_branch (mkModule (sampleHParams "coco")) rfl

/-- A pascal configuration whose `test_paths` is truthy but holds a single
entry, so the `test_paths[1]` indexing in `prepare_data` fails. -/
def pascalShortModule : ModuleState :=
  mkModule
    { sampleHParams "pascal" with
        dataset := { (sampleHParams "pascal").dataset with test_paths := ["only.csv"] } }

/-- Counterexample to C3 as stated: a pascal configuration with a truthy
(present) `test_paths` on which `prepare_data` raises an `IndexError`
instead of producing a (non-falsy) test dataset — `test_ds` is never set. -/
theorem prepare_data_pascal_short_cex :
    pascalShortModule.hparams.dataset.kind = "pascal" ∧
    pascalShortModule.hparams.dataset.test_paths ≠ [] ∧
    (prepare_data pascalShortModule).2 = some PyErr.indexError ∧
    ¬ ∃ t, (prepare_data pascalShortModule).1.test_ds = some t ∧ t.truthy = true := by
  refine ⟨rfl, by decide, rfl, ?_⟩
  rintro ⟨t, ht, -⟩
  rw [show (prepare_data pascalShortModule).1.test_ds = none from rfl] at ht
  cases ht

/-- C3 (amended): with kind `"pascal"` and `trn_paths`/`valid_paths`
providing the entries the loader calls index: when `test_paths` also
provides entries at indices 0 and 1 (in particular it is truthy),
`prepare_data` succeeds and the test dataset is non-falsy and built from the
two test paths via the Pascal loader; when `test_paths` is empty (falsy),
the test dataset is set to a falsy value. -/
theorem prepare_data_pascal_test_ds (s : ModuleState) (t0 t1 v0 v1 : String)
    (hk : s.hparams.dataset.kind = "pascal")
    (ht0 : s.hparams.dataset.trn_paths[0]? = some t0)
    (ht1 : s.hparams.dataset.trn_paths[1]? = some t1)
    (hv0 : s.hparams.dataset.valid_paths[0]? = some v0)
    (hv1 : s.hparams.dataset.valid_paths[1]? = some v1) :
    (∀ p0 p1, s.hparams.dataset.test_paths[0]? = some p0 →
        s.hparams.dataset.test_paths[1]? = some p1 →
        (prepare_data s).2 = none ∧
        ∃ t, (prepare_data s).1.test_ds = some t ∧ t.truthy = true ∧
          t = get_pascal p0 p1 "test" (compose_transforms [])) ∧
    (s.hparams.dataset.test_paths = [] →
      (prepare_data s).2 = none ∧
      ∃ t, (prepare_data s).1.test_ds = some t ∧ t.truthy = false) := by
  have hkc : ¬ s.hparams.dataset.kind = "coco" := by
    rw [hk]; decide
  constructor
  · intro p0 p1 hp0 hp1
    have hne : s.hparams.dataset.test_paths.isEmpty = false := by
      cases hpp : s.hparams.dataset.test_paths with
      | nil => rw [hpp] at hp0; simp at hp0
      | cons a l => rfl
    refine ⟨?_, get_pascal p0 p1 "test" (compose_transforms []), ?_, rfl, rfl⟩ <;>
      simp [prepare_data, hkc, hk, ht0, ht1, hv0, hv1, hne, hp0, hp1, DSVal.truthy,
        get_pascal, compose_transforms]
  · intro hempty
    have he : s.hparams.dataset.test_paths.isEmpty = true := by
      rw [hempty]; rfl
    refine ⟨?_, DSVal.pyFalse, ?_, rfl⟩ <;>
      simp [prepare_data, hkc, hk, ht0, ht1, hv0, hv1, he, DSVal.truthy]

/-- Witness for the amended C3 at the sample pascal configuration (two test
paths present). -/
theorem prepare_data_pascal_test_ds_w :
    (prepare_data (mkModule (sampleHParams "pascal"))).2 = none ∧
    ∃ t, (prepare_data (mkModule (sampleHParams "pascal"))).1.test_ds = some t ∧
      t.truthy = true ∧
      t = get_pascal "tst.csv" "tst_images" "test" (compose_transforms []) :=
  (prepare_data_pascal_test_ds (mkModule (sampleHParams "pascal"))
    "trn.csv" "trn_images" "val.csv" "val_images" rfl rfl rfl rfl rfl).1
    "tst.csv" "tst_images" rfl rfl

/-- C5: `test_epoch_end` finalizes the stored evaluator by `accumulate` then
`summarize` (leaving both flags set), and when it returns a result its `AP`
entry is exactly the first entry (index 0) of the finalized evaluator's
`stats` array for the `"bbox"` IoU type. -/
theorem test_epoch_end_ap_stats (f : StatsFn) (s : ModuleState) (ev : CocoEvaluator)
    (h : s.test_evaluator = some ev) :
    (test_epoch_end f s).1.test_evaluator = some ((ev.accumulate).summarize f) ∧
    ((ev.accumulate).summarize f).accumulated = true ∧
    ((ev.accumulate).summarize f).summarized = true ∧
    ∀ e, ((ev.accumulate).summarize f).coco_eval.lookup "bbox" = some e →
      ∀ m, e.stats[0]? = some m →
        (test_epoch_end f s).2 =
          Except.ok { AP := m, log := [("AP", m)], progress_bar := [("AP", m)] } := by
  refine ⟨?_, rfl, rfl, ?_⟩
  · simp only [test_epoch_end, h]
    repeat' split
    all_goals rfl
  · intro e he m hm
    simp [test_epoch_end, h, he, hm, torch_as_tensor]

/-- A concrete statistics computation for the C5 witness. -/
def statsFnFixture : StatsFn := fun _ _ _ => [37/100]

/-- A module that has gone through a test pass: an evaluator with one update
is installed. -/
def evaluatedModule : ModuleState :=
  { mkModule (sampleHParams "coco") with
      test_evaluator := some
        ((CocoEvaluator.new (get_coco_api_from_dataset (get_coco "data/coco" "val" [Tfm.toTensor]))
          ["bbox"]).update [(5, 1)]) }

/-- Witness for C5 at a concrete evaluator and statistics computation: the
returned `AP` is the first entry of the `"bbox"` stats array. -/
theorem test_epoch_end_ap_stats_w :
    (test_epoch_end statsFnFixture evaluatedModule).1.test_evaluator =
      some ((((CocoEvaluator.new
          (get_coco_api_from_dataset (get_coco "data/coco" "val" [Tfm.toTensor]))
          ["bbox"]).update [(5, 1)]).accumulate).summarize statsFnFixture) ∧
    (test_epoch_end statsFnFixture evaluatedModule).2 =
      Except.ok { AP := 37/100, log := [("AP", 37/100)], progress_bar := [("AP", 37/100)] } := by
  have h := test_epoch_end_ap_stats statsFnFixture evaluatedModule
    ((CocoEvaluator.new (get_coco_api_from_dataset (get_coco "data/coco" "val" [Tfm.toTensor]))
      ["bbox"]).update [(5, 1)]) rfl
  exact ⟨h.1, h.2.2.2 { stats := [37/100] } rfl (37/100) rfl⟩

/-- C9: when the test dataset slot holds a falsy value, `test_dataloader`
silently falls back to the validation dataset with the validation batch
size — so the fresh COCO evaluator is built over the validation dataset —
and otherwise it uses the test dataset with the test batch size. -/
theorem test_dataloader_select (s : ModuleState) (tds vds : DSVal)
    (ht : s.test_ds = some tds) (hv : s.val_ds = some vds) :
    (tds.truthy = false →
      ∃ loader, (test_dataloader s).2 = Except.ok loader ∧
        loader.dataset = vds ∧
        loader.batch_size = s.hparams.dataloader.valid_bs ∧
        (test_dataloader s).1.test_evaluator =
          some (CocoEvaluator.new (get_coco_api_from_dataset vds) ["bbox"])) ∧
    (tds.truthy = true →
      ∃ loader, (test_dataloader s).2 = Except.ok loader ∧
        loader.dataset = tds ∧
        loader.batch_size = s.hparams.dataloader.test_bs ∧
        (test_dataloader s).1.test_evaluator =
          some (CocoEvaluator.new (get_coco_api_from_dataset tds) ["bbox"])) := by
  constructor
  · intro hf
    refine ⟨{ dataset := vds, batch_size := s.hparams.dataloader.valid_bs,
              shuffle := false, args := s.hparams.dataloader.args }, ?_, rfl, rfl, ?_⟩ <;>
      simp [test_dataloader, ht, hv, hf, ModuleState.logInfo]
  · intro htr
    refine ⟨{ dataset := tds, batch_size := s.hparams.dataloader.test_bs,
              shuffle := false, args := s.hparams.dataloader.args }, ?_, rfl, rfl, ?_⟩ <;>
      simp [test_dataloader, ht, htr, ModuleState.logInfo]

/-- A module whose `prepare_data` ran on the COCO branch: the test slot is
the falsy `False` and the validation dataset is present. -/
def cocoPreparedModule : ModuleState :=
  { mkModule (sampleHParams "coco") with
      trn_ds := some (get_coco "data/coco" "train" [Tfm.toTensor, Tfm.randomHorizontalFlip (1/2)])
      val_ds := some (get_coco "data/coco" "val" [Tfm.toTensor])
      test_ds := some DSVal.pyFalse }

/-- Witness for C9 on the falsy side: with `test_ds = False` the loader and
the evaluator are built over the validation dataset. -/
theorem test_dataloader_select_w :
    ∃ loader, (test_dataloader cocoPreparedModule).2 = Except.ok loader ∧
      loader.dataset = get_coco "data/coco" "val" [Tfm.toTensor] ∧
      loader.batch_size = cocoPreparedModule.hparams.dataloader.valid_bs ∧
      (test_dataloader cocoPreparedModule).1.test_evaluator =
        some (CocoEvaluator.new
          (get_coco_api_from_dataset (get_coco "data/coco" "val" [Tfm.toTensor])) ["bbox"]) :=
  (test_dataloader_select cocoPreparedModule DSVal.pyFalse
    (get_coco "data/coco" "val" [Tfm.toTensor]) rfl rfl).1 rfl

/-- All module fields except the log output and the test evaluator agree. -/
def sameCore (a b : ModuleState) : Prop :=
  a.hparams = b.hparams ∧ a.model = b.model ∧ a.predict = b.predict ∧
  a.trn_ds = b.trn_ds ∧ a.val_ds = b.val_ds ∧ a.test_ds = b.test_ds ∧
  a.optimizer = b.optimizer ∧ a.scheduler = b.scheduler

/-- A module mid-run on the sample pascal configuration, with datasets
prepared and an evaluator that has already received one update. -/
def testedModule : ModuleState :=
  { mkModule (sampleHParams "pascal") with
      trn_ds := some (get_pascal "trn.csv" "trn_images" "train" [])
      val_ds := some (get_pascal "val.csv" "val_images" "test" [])
      test_ds := some (get_pascal "tst.csv" "tst_images" "test" [])
      test_evaluator := some
        ((CocoEvaluator.new
          (get_coco_api_from_dataset (get_pascal "tst.csv" "tst_images" "test" []))
          ["bbox"]).update [(5, 1)]) }

/-- Counterexample to C6 as stated: at a concrete module state,
`on_test_start` does NOT leave the module's test evaluator unchanged — its
call to `test_dataloader` replaces it (here, an evaluator that had already
received an update is overwritten by a fresh one). -/
theorem on_test_start_replaces_evaluator :
    ((on_test_start { } 7 testedModule).1.2).test_evaluator ≠
      testedModule.test_evaluator := by
  decide

/-- C6 (amended): the logging callbacks only record their own timestamps and
append log lines — `on_fit_start`, `on_train_start`, `on_train_end` and
`on_test_end` leave every module field except the log unchanged (in
particular the test evaluator) — with the exception that `on_test_start`,
through its call to the module's `test_dataloader`, replaces the module's
test evaluator with a freshly constructed one (every other non-log module
field is still unchanged). -/
theorem log_callbacks_frame (cb : CallbackState) (tr : Trainer) (now : ℕ) (m : ModuleState) :
    (sameCore ((on_fit_start cb tr m).2) m ∧
      ((on_fit_start cb tr m).2).test_evaluator = m.test_evaluator) ∧
    ((on_train_start cb now tr m).1.1.train_start = some now ∧
      sameCore ((on_train_start cb now tr m).1.2) m ∧
      ((on_train_start cb now tr m).1.2).test_evaluator = m.test_evaluator) ∧
    ((on_train_end cb now m).1.1.train_end = some now ∧
      sameCore ((on_train_end cb now m).1.2) m ∧
      ((on_train_end cb now m).1.2).test_evaluator = m.test_evaluator) ∧
    ((on_test_end cb now m).1.1.test_end = some now ∧
      sameCore ((on_test_end cb now m).1.2) m ∧
      ((on_test_end cb now m).1.2).test_evaluator = m.test_evaluator) ∧
    ((on_test_start cb now m).1.1.test_start = some now ∧
      sameCore ((on_test_start cb now m).1.2) m ∧
      ((on_test_start cb now m).2 = none →
        ∃ ds, ((on_test_start cb now m).1.2).test_evaluator =
          some (CocoEvaluator.new (get_coco_api_from_dataset ds) ["bbox"]))) := by
  refine ⟨⟨?_, rfl⟩, ?_, ?_, ?_, ?_⟩
  · simp [sameCore, on_fit_start, ModuleState.logInfo]
  · cases hm : m.trn_ds with
    | none => simp [on_train_start, train_dataloader, hm, sameCore, ModuleState.logInfo]
    | some ds => simp [on_train_start, train_dataloader, hm, sameCore, ModuleState.logInfo]
  · cases hs : cb.train_start with
    | none => simp [on_train_end, hs, sameCore, ModuleState.logInfo]
    | some st => simp [on_train_end, hs, sameCore, ModuleState.logInfo]
  · cases hs : cb.test_start with
    | none => simp [on_test_end, hs, sameCore, ModuleState.logInfo]
    | some st => simp [on_test_end, hs, sameCore, ModuleState.logInfo]
  · cases hm : m.test_ds with
    | none => simp [on_test_start, test_dataloader, hm, sameCore, ModuleState.logInfo]
    | some tds =>
      cases htr : tds.truthy with
      | false =>
        cases hv : m.val_ds with
        | none =>
          simp [on_test_start, test_dataloader, hm, htr, hv, sameCore, ModuleState.logInfo]
        | some vds =>
          refine ⟨?_, ?_, fun _ => ⟨vds, ?_⟩⟩ <;>
            simp [on_test_start, test_dataloader, hm, htr, hv, sameCore, ModuleState.logInfo]
      | true =>
        refine ⟨?_, ?_, fun _ => ⟨tds, ?_⟩⟩ <;>
          simp [on_test_start, test_dataloader, hm, htr, sameCore, ModuleState.logInfo]

/-- Witness for the amended C6: on the concrete mid-run module,
`on_test_start` succeeds and installs a freshly constructed evaluator. -/
theorem log_callbacks_frame_w :
    (on_test_start { } 7 testedModule).2 = none ∧
    ∃ ds, ((on_test_start { } 7 testedModule).1.2).test_evaluator =
      some (CocoEvaluator.new (get_coco_api_from_dataset ds) ["bbox"]) :=
  ⟨rfl,
    (log_callbacks_frame { } { max_epochs := 10, global_step := 0 } 7 testedModule).2.2.2.2.2.2
      rfl⟩
